import Mathlib

/-!
Verification of the identity-resolution and usage-metering core of
skynet-accounts against its specification.

The Go sources are shallowly embedded: pure functions become Lean
functions, the process-global JWKS cache becomes explicit state passing,
fallible code returns `Except`/`Option`, and a Go `panic` is a dedicated
outcome constructor.  External collaborators (the network fetch of the
key document, the database, the request parser) are passed in as oracle
arguments so that each handler's control flow is a total function of its
inputs.
-/

namespace Skynet

/-! ## Embedding of api/jwt.go -/

/-- Signing algorithms as jwt-go method values.  In jwt-go the Go type
assertion `token.Method.(*jwt.SigningMethodRSA)` succeeds exactly for the
RS256/RS384/RS512 methods; HMAC methods (HS*) are a different concrete
type, as are ECDSA (ES*) and RSAPSS (PS*). -/
inductive SigningMethod
  | RS256 | RS384 | RS512
  | HS256 | HS384 | HS512
  | ES256 | PS256
  deriving DecidableEq, Repr

/-- Whether the method is a `*jwt.SigningMethodRSA`, i.e. passes the type
assertion in `keyForToken` (jwt.go line 98). -/
def SigningMethod.isRSA : SigningMethod → Bool
  | .RS256 | .RS384 | .RS512 => true
  | _ => false

/-- Whether the method is a symmetric (HMAC) method. -/
def SigningMethod.isSymmetric : SigningMethod → Bool
  | .HS256 | .HS384 | .HS512 => true
  | _ => false

/-- A JSON header value, as far as `keyForToken` inspects it: the code only
distinguishes strings from everything else via `reflect...Kind()`. -/
inductive HeaderValue
  | str (s : String)
  | num (n : Int)
  | boolean (b : Bool)
  deriving DecidableEq, Repr

/-- The parts of a parsed token that `keyForToken` reads: the signing
method and the `kid` header field (`none` models an absent header key,
whose reflected kind is Invalid, not String). -/
structure GoToken where
  method : SigningMethod
  kid : Option HeaderValue
  deriving DecidableEq, Repr

/-- A JWK set: key-identifier / key-material pairs.  Key material is
abstracted to a natural number (the bytes returned by `Materialize`). -/
structure JWKSet where
  keys : List (String × Nat)
  deriving DecidableEq, Repr

/-- `jwk.Set.LookupKeyID`: all keys whose kid matches. -/
def JWKSet.lookupKeyID (s : JWKSet) (kid : String) : List Nat :=
  (s.keys.filter (fun p => p.1 == kid)).map (fun p => p.2)

/-- Errors of the token/key pipeline, one constructor per distinct error
value constructed in jwt.go. -/
inductive JWTErr
  | unexpectedSigningMethod
  | fetchFailed
  | kidNotString
  | noSuitableKeys
  deriving DecidableEq, Repr

instance {ε α : Type} [DecidableEq ε] [DecidableEq α] : DecidableEq (Except ε α) := fun a b =>
  match a, b with
  | .error e, .error f =>
    decidable_of_iff (e = f) ⟨fun h => by rw [h], fun h => by cases h; rfl⟩
  | .ok x, .ok y =>
    decidable_of_iff (x = y) ⟨fun h => by rw [h], fun h => by cases h; rfl⟩
  | .error _, .ok _ => .isFalse (fun h => by cases h)
  | .ok _, .error _ => .isFalse (fun h => by cases h)

/-- Result of a key-set request: the returned set or error, the cache
state afterwards, and how many network fetches were performed. -/
structure KeysResult where
  result : Except JWTErr JWKSet
  cache : Option JWKSet
  fetches : Nat
  deriving DecidableEq, Repr

/-- `oathkeeperPublicKeys` (jwt.go lines 122-144).  The process-global
`oathkeeperPubKeys` variable is the `cache` argument; the network GET and
JWKS parse is the `fetch` oracle.  A populated cache is returned as-is
with no fetch; an empty cache triggers exactly one fetch, and a failed
fetch leaves the cache empty. -/
def oathkeeperPublicKeys (cache : Option JWKSet) (fetch : Except Unit JWKSet) :
    KeysResult :=
  match cache with
  | some s => ⟨.ok s, some s, 0⟩
  | none =>
    match fetch with
    | .error _ => ⟨.error .fetchFailed, none, 1⟩
    | .ok s => ⟨.ok s, some s, 1⟩

/-- Result of `keyForToken`: the materialized key or error, plus the cache
state and fetch count. -/
structure KeyResult where
  result : Except JWTErr Nat
  cache : Option JWKSet
  fetches : Nat
  deriving DecidableEq, Repr

/-- `keyForToken` (jwt.go lines 97-113).  Faithful to the source order:
(1) reject any method that is not `*jwt.SigningMethodRSA` before touching
the key set; (2) obtain the key set from the cache; (3) require the `kid`
header to be a string; (4) look the kid up in the set and fail with the
no-suitable-keys error when the lookup is empty — the source performs no
cache refresh and no retry on a miss; (5) materialize the first match. -/
def keyForToken (tok : GoToken) (cache : Option JWKSet)
    (fetch : Except Unit JWKSet) : KeyResult :=
  if !tok.method.isRSA then ⟨.error .unexpectedSigningMethod, cache, 0⟩
  else
    match oathkeeperPublicKeys cache fetch with
    | ⟨.error e, c, n⟩ => ⟨.error e, c, n⟩
    | ⟨.ok s, c, n⟩ =>
      match tok.kid with
      | some (.str k) =>
        match s.lookupKeyID k with
        | [] => ⟨.error .noSuitableKeys, c, n⟩
        | key :: _ => ⟨.ok key, c, n⟩
      | _ => ⟨.error .kidNotString, c, n⟩

/-- A JSON claim value, as far as `tokenFromContext` inspects one. -/
inductive JVal
  | str (s : String)
  | num (n : Int)
  | otherVal
  deriving DecidableEq, Repr

/-- The `Claims` field of a `*jwt.Token`: either a `jwt.MapClaims` map or
some other dynamic type. -/
inductive GoClaims
  | mapClaims (m : List (String × JVal))
  | otherClaims
  deriving DecidableEq, Repr

/-- The token object stored in the request context. -/
structure CtxToken where
  claims : GoClaims
  deriving DecidableEq, Repr

/-- Go map lookup on the association-list model of `jwt.MapClaims`. -/
def lookupClaim (m : List (String × JVal)) (k : String) : Option JVal :=
  (m.find? (fun p => p.1 == k)).map (fun p => p.2)

/-- The error values `tokenFromContext` can return. -/
inductive TfcErr
  | failedToGetToken
  | wrongClaimsType
  | noValidSub
  deriving DecidableEq, Repr

/-- Outcome of `tokenFromContext`: a subject, an error return, or a Go
panic (`panicked` models an uncaught runtime fault). -/
inductive TfcOutcome
  | ok (sub : String)
  | err (e : TfcErr)
  | panicked
  deriving DecidableEq, Repr

/-- `tokenFromContext` (jwt.go lines 208-231), with Go semantics traced
faithfully.  When `sub` is present but not a string, line 219 sets `err`
but does not return; control reaches line 228 where the type assertion
`subEntry.(string)` raises a runtime panic, so the function's outcome is
`panicked`, not an error return.  When `sub` is absent, the `ok` check at
line 222 returns the no-valid-sub error.  An absent or wrongly-typed
context token, or claims of an unexpected dynamic type, are error
returns. -/
def tokenFromContext (ctxToken : Option CtxToken) : TfcOutcome :=
  match ctxToken with
  | none => .err .failedToGetToken
  | some t =>
    match t.claims with
    | .otherClaims => .err .wrongClaimsType
    | .mapClaims m =>
      match lookupClaim m "sub" with
      | none => .err .noValidSub
      | some (.str s) => .ok s
      | some _ => .panicked

/-! ## Embedding of the credential resolver (withAuth, routes file) -/

/-- Error values of the credential resolver, one constructor per distinct
error value the resolver classifies; `internal` covers any other error
coming out of the API-key user lookup.  `errors.Contains` and
`errors.AddContext` preserve the base error, so classification is
modelled as equality on constructors. -/
inductive AuthErr
  | noAPIKey
  | apiKeyNotAllowed
  | noToken
  | invalidAPIKey
  | userNotFound
  | internal (code : Nat)
  deriving DecidableEq, Repr

/-- The user/token pair produced by a successful credential resolution. -/
structure AuthedUser where
  userId : Nat
  token : Nat
  deriving DecidableEq, Repr

/-- Outcome of `withAuth`: the wrapped handler is served (with the
resolved user, or Go `nil` for the unreachable-in-practice fall-through
when the API-key lookup returns the no-api-key error), or an HTTP error
is written with the given status and error value. -/
inductive AuthOutcome
  | served (u : Option AuthedUser)
  | httpError (status : Nat) (e : AuthErr)
  deriving DecidableEq, Repr

/-- Modelled from the spec: `apiKeyFromRequest` is absent from src (only
its caller `withAuth` is present).  Per spec section 4.5 step 3, it
extracts the API-key header and fails with the no-api-key error when the
header is absent. -/
def apiKeyFromRequest (header : Option String) : Except AuthErr String :=
  match header with
  | none => .error .noAPIKey
  | some k => .ok k

/-- `withAuth` (routes file, lines 95-132).  The token path
(`userAndTokenByRequestToken`) and the API-key path
(`userAndTokenByAPIKey`) are oracle arguments.  Faithful to the source:
a token failure is swallowed and control falls through to the API-key
path; a failed API-key extraction writes that error with status 401; an
extracted key on a route with `allowsAPIKey = false` writes the distinct
api-key-not-allowed error with status 401; otherwise the API-key lookup
runs and its errors are classified — anything other than no-api-key /
invalid-api-key / user-not-found is a 500, invalid-api-key and
user-not-found are 401s, and the residual no-api-key error slips past
both checks so the handler is served with a nil user. -/
def withAuth (allowsAPIKey : Bool)
    (tokenAuth : Except AuthErr AuthedUser)
    (apiKeyExtract : Except AuthErr String)
    (apiKeyAuth : String → Except AuthErr AuthedUser) : AuthOutcome :=
  match tokenAuth with
  | .ok u => .served (some u)
  | .error _ =>
    match apiKeyExtract with
    | .error e => .httpError 401 e
    | .ok ak =>
      if !allowsAPIKey then .httpError 401 .apiKeyNotAllowed
      else
        match apiKeyAuth ak with
        | .ok u => .served (some u)
        | .error e =>
          if e ≠ .noAPIKey ∧ e ≠ .invalidAPIKey ∧ e ≠ .userNotFound then
            .httpError 500 e
          else if e = .invalidAPIKey ∨ e = .userNotFound then
            .httpError 401 e
          else
            .served none

/-! ## Embedding of api/apikeys.go -/

/-- `APIKeyPOST`: the body of a key-creation request. -/
structure APIKeyPOST where
  public : Bool
  skylinks : List String
  deriving DecidableEq, Repr

/-- `APIKeyPOST.Valid` (apikeys.go lines 52-62).  The skylink format
check `database.ValidSkylinkHash` lives outside src, so it is passed in
as the predicate `chk`.  A non-public body with a non-empty skylink list
is invalid; otherwise every skylink must pass the format check. -/
def APIKeyPOST.Valid (chk : String → Bool) (akp : APIKeyPOST) : Bool :=
  if !akp.public && decide (akp.skylinks.length > 0) then false
  else akp.skylinks.all chk

/-- Result of `staticDB.APIKeyCreate` (database layer, outside src). -/
inductive CreateResult
  | created (keyId : Nat)
  | maxNumExceeded
  | otherDBErr
  deriving DecidableEq, Repr

/-- HTTP outcome of the key-creation handler. -/
inductive POSTOutcome
  | badRequest
  | internalError
  | success (keyId : Nat)
  deriving DecidableEq, Repr

/-- Outcome of `userAPIKeyPOST` plus whether persistence
(`APIKeyCreate`) was attempted before the response was written. -/
structure POSTTrace where
  outcome : POSTOutcome
  persistAttempted : Bool
  deriving DecidableEq, Repr

/-- `userAPIKeyPOST` (apikeys.go lines 87-107).  Faithful to the source:
after a successful body parse the handler calls `APIKeyCreate` directly —
it never consults `APIKeyPOST.Valid`.  A parse failure is a 400 with no
persistence attempt; a max-keys-exceeded error from the database is a
400, any other database error a 500, and success returns the new key. -/
def userAPIKeyPOST (parse : Option APIKeyPOST)
    (create : APIKeyPOST → CreateResult) : POSTTrace :=
  match parse with
  | none => ⟨.badRequest, false⟩
  | some body =>
    match create body with
    | .maxNumExceeded => ⟨.badRequest, true⟩
    | .otherDBErr => ⟨.internalError, true⟩
    | .created kid => ⟨.success kid, true⟩

/-- The fields of a `database.APIKeyRecord` that `userAPIKeyGET` reads. -/
structure APIKeyRecordR where
  userId : Nat
  deriving DecidableEq, Repr

/-- Result of `staticDB.APIKeyGet` (database layer, outside src):
a record, the mongo no-documents error, or any other database error. -/
inductive APIKeyLookup
  | found (ak : APIKeyRecordR)
  | noDocuments
  | dbErr
  deriving DecidableEq, Repr

/-- Response of the single-key GET handler.  `httpError status body`
models `WriteError`; `body = none` is `WriteError(w, nil, ...)`, an error
response with no body detail. -/
inductive GETResponse
  | json (ak : APIKeyRecordR)
  | httpError (status : Nat) (body : Option Unit)
  deriving DecidableEq, Repr

/-- `userAPIKeyGET` (apikeys.go lines 110-129).  Faithful to the source:
a malformed id is a 400; a no-documents lookup error, or a found record
whose owning user differs from the requester, is a 404 written with a nil
error (no body detail); any other lookup error is a 500; otherwise the
record is returned. -/
def userAPIKeyGET (uid : Nat) (idParsed : Bool) (lookup : APIKeyLookup) :
    GETResponse :=
  if !idParsed then .httpError 400 (some ())
  else
    match lookup with
    | .noDocuments => .httpError 404 none
    | .found ak => if ak.userId ≠ uid then .httpError 404 none else .json ak
    | .dbErr => .httpError 500 (some ())

/-! ## Secure cookie codec

The encode side in src (`writeCookie`, part_001) delegates the value
encoding to `securecookie.Encode(CookieName, token)` — the expiry
argument only clamps the cookie's metadata, never the encoded value —
and the decode side is absent from src altogether.  The codec is
therefore modelled from the spec. -/

/-- The integrity (hash) and confidentiality (block) keys, loaded once at
process start. -/
structure CookieKeys where
  hashKey : Nat
  blockKey : Nat
  deriving DecidableEq, Repr

/-- Injective encoding of a byte list into one natural number, used as
the idealized MAC input. -/
def encodeBytes : List Nat → Nat
  | [] => 0
  | b :: rest => Nat.pair b (encodeBytes rest) + 1

/-- Idealized MAC over the key pair and the payload bytes: a perfectly
collision-free authenticator, standing in for HMAC in the model. -/
def cookieMac (keys : CookieKeys) (payload : List Nat) : Nat :=
  Nat.pair keys.hashKey (Nat.pair keys.blockKey (encodeBytes payload))

/-- Modelled from the spec: the securecookie encode used by
`writeCookie` (part_001 line 42).  The token is a byte string; the
encoded cookie value carries the MAC followed by the token bytes.  As in
`writeCookie`, the expiry argument does not influence the encoded
value. -/
def encodeCookie (keys : CookieKeys) (token : List Nat) (_exp : Int) :
    List Nat :=
  cookieMac keys token :: token

/-- Modelled from the spec: the securecookie decode used when reading the
token back from the cookie (the reader is absent from src).  Decoding is
total: a value whose MAC does not verify yields `none` (absent), never a
fault. -/
def decodeCookie (keys : CookieKeys) (v : List Nat) : Option (List Nat) :=
  match v with
  | [] => none
  | m :: payload => if m = cookieMac keys payload then some payload else none

/-! ## Usage meter

The implementation file skynet/bandwidth.go is absent from src (only its
test file is present), so the meter functions are modelled from the spec
and checked against the test vectors of skynet/bandwidth_test.go. -/

def KiB : Nat := 1024

def MiB : Nat := 1048576

/-- Modelled from the spec: the capacity of a base sector, 4 MiB. -/
def baseSectorCapacity : Nat := 4 * MiB

/-- Modelled from the spec: the capacity of a chunk, 40 MiB. -/
def chunkCapacity : Nat := 40 * MiB

/-- Modelled from the spec: `numChunks` (skynet/bandwidth.go, absent from
src) — 0 when the size fits in a base sector, otherwise the ceiling of
the overflow divided by the chunk capacity. -/
def numChunks (size : Nat) : Nat :=
  if size ≤ baseSectorCapacity then 0
  else (size - baseSectorCapacity + chunkCapacity - 1) / chunkCapacity

/-- Rounding up to the next multiple of `mul`. -/
def roundUpToMultiple (n mul : Nat) : Nat := ((n + mul - 1) / mul) * mul

/-- Modelled from the spec: `BandwidthDownloadCost` (skynet/bandwidth.go,
absent from src) — a fixed 200 KiB overhead plus the size rounded up to
the next multiple of 64 bytes. -/
def BandwidthDownloadCost (size : Nat) : Nat :=
  200 * KiB + roundUpToMultiple size 64

/-! ## Helper lemmas -/

/-- `encodeBytes` is injective: distinct byte lists have distinct
encodings. -/
theorem encodeBytes_injective : Function.Injective encodeBytes := by
  intro a
  induction a with
  | nil =>
    intro b h
    cases b with
    | nil => rfl
    | cons d ds => simp [encodeBytes] at h
  | cons c cs ih =>
    intro b h
    cases b with
    | nil => simp [encodeBytes] at h
    | cons d ds =>
      simp only [encodeBytes, Nat.add_right_cancel_iff] at h
      obtain ⟨h1, h2⟩ := Nat.pair_eq_pair.mp h
      rw [h1, ih h2]

/-- The idealized MAC binds both the key pair and the payload. -/
theorem cookieMac_inj {k k' : CookieKeys} {p p' : List Nat}
    (h : cookieMac k p = cookieMac k' p') : k = k' ∧ p = p' := by
  unfold cookieMac at h
  obtain ⟨h1, h2⟩ := Nat.pair_eq_pair.mp h
  obtain ⟨h3, h4⟩ := Nat.pair_eq_pair.mp h2
  refine ⟨?_, encodeBytes_injective h4⟩
  cases k
  cases k'
  simp_all

/-- Overwriting a list entry with a different value yields a different
list. -/
theorem set_ne_of_get_ne :
    ∀ (t : List Nat) (j : Nat) (b : Nat) (hj : j < t.length),
      b ≠ t.get ⟨j, hj⟩ → t.set j b ≠ t := by
  intro t
  induction t with
  | nil => intro j b hj; cases hj
  | cons x xs ih =>
    intro j b hj hb
    cases j with
    | zero =>
      intro hcontra
      exact hb (by simpa using congrArg (fun l => l.headI) hcontra)
    | succ j =>
      intro hcontra
      have hj' : j < xs.length := Nat.lt_of_succ_lt_succ hj
      have : xs.set j b = xs := by simpa using congrArg List.tail hcontra
      exact ih j b hj' hb this

/-! ## Claim theorems -/

/-- Claim C1: for every token whose declared signing algorithm is not in
the RSA allow-list — in particular any symmetric algorithm —
`keyForToken` fails with the unexpected-signing-method error before
consulting the key set (zero fetches), for every cache content and fetch
oracle; so a verification key is never resolved even when a key under the
matching key-identifier is present. -/
theorem c1_non_rsa_method_rejected :
    (∀ (tok : GoToken) (cache : Option JWKSet) (fetch : Except Unit JWKSet),
      tok.method.isRSA = false →
      (keyForToken tok cache fetch).result = .error .unexpectedSigningMethod ∧
      (keyForToken tok cache fetch).fetches = 0) ∧
    (∀ m : SigningMethod, m.isSymmetric = true → m.isRSA = false) := by
  constructor
  · intro tok cache fetch h
    constructor <;> simp [keyForToken, h]
  · intro m hm
    cases m <;> simp_all [SigningMethod.isSymmetric, SigningMethod.isRSA]

/-- Witness for C1: an HS256 token whose key-identifier does key a
matching entry in the cached set is still rejected with the
unexpected-signing-method error. -/
theorem c1_witness :
    SigningMethod.HS256.isRSA = false ∧
    (keyForToken ⟨.HS256, some (.str "kid1")⟩ (some ⟨[("kid1", 7)]⟩)
        (.ok ⟨[("kid1", 7)]⟩)).result = .error .unexpectedSigningMethod :=
  ⟨rfl, (c1_non_rsa_method_rejected.1 ⟨.HS256, some (.str "kid1")⟩
      (some ⟨[("kid1", 7)]⟩) (.ok ⟨[("kid1", 7)]⟩) rfl).1⟩

/-- Claim C2 counterexample: a well-formed RS256 token whose
key-identifier is absent from the populated cache fails with the
no-suitable-keys error after zero fetches, even though the fetch oracle
would have returned a refreshed key set containing that identifier — so
no cache refresh and no retry happens on a key-set cache miss. -/
theorem c2_no_refresh_counterexample :
    (keyForToken ⟨.RS256, some (.str "kidA")⟩ (some ⟨[("kidB", 5)]⟩)
        (.ok ⟨[("kidA", 9)]⟩)).result = .error .noSuitableKeys ∧
    (keyForToken ⟨.RS256, some (.str "kidA")⟩ (some ⟨[("kidB", 5)]⟩)
        (.ok ⟨[("kidA", 9)]⟩)).fetches = 0 := by
  constructor <;> rfl

/-- Claim C2 (amended): for every token whose key-identifier is not found
in the populated cached key set, key resolution fails immediately with
the no-suitable-keys error, performing no cache refresh and no retry:
the cache is left untouched and zero fetches occur, whatever the fetch
oracle would return. -/
theorem c2_amended_cache_miss_fails_without_refresh
    (tok : GoToken) (s : JWKSet) (fetch : Except Unit JWKSet) (k : String)
    (hm : tok.method.isRSA = true) (hk : tok.kid = some (.str k))
    (hmiss : s.lookupKeyID k = []) :
    keyForToken tok (some s) fetch = ⟨.error .noSuitableKeys, some s, 0⟩ := by
  simp [keyForToken, hm, oathkeeperPublicKeys, hk, hmiss]

/-- Witness for the amended C2. -/
theorem c2_amended_witness :
    keyForToken ⟨.RS256, some (.str "kidA")⟩ (some ⟨[("kidB", 5)]⟩)
        (.ok ⟨[]⟩) = ⟨.error .noSuitableKeys, some ⟨[("kidB", 5)]⟩, 0⟩ :=
  c2_amended_cache_miss_fails_without_refresh ⟨.RS256, some (.str "kidA")⟩
    ⟨[("kidB", 5)]⟩ (.ok ⟨[]⟩) "kidA" rfl rfl rfl

/-- Claim C3 (code bug): a context token whose claims carry a `sub` that
is present but not a string makes `tokenFromContext` panic — the missing
`return` after setting the error at jwt.go line 220 lets control reach
the `subEntry.(string)` type assertion — instead of returning an error as
the claim states; a token with `sub` absent does return an error. -/
theorem c3_nonstring_sub_panics :
    tokenFromContext (some ⟨.mapClaims [("sub", .num 42)]⟩) = .panicked ∧
    tokenFromContext (some ⟨.mapClaims [("iss", .str "x")]⟩) =
      .err .noValidSub := by
  constructor <;> rfl

/-- Claim C4 (code bug): the creation body with `public = false` and a
non-empty skylink list is invalid under `APIKeyPOST.Valid` for every
format-check predicate, yet `userAPIKeyPOST` — which never calls
`Valid` — still attempts persistence (`APIKeyCreate`) on it for every
database behaviour, contradicting the claim that the request is rejected
before persistence is attempted. -/
theorem c4_validation_not_consulted :
    (∀ chk : String → Bool,
      APIKeyPOST.Valid chk ⟨false, ["AABBCC"]⟩ = false) ∧
    (∀ create : APIKeyPOST → CreateResult,
      (userAPIKeyPOST (some ⟨false, ["AABBCC"]⟩) create).persistAttempted =
        true) := by
  constructor
  · intro chk
    rfl
  · intro create
    cases h : create ⟨false, ["AABBCC"]⟩ <;> simp [userAPIKeyPOST, h]

/-- Witness for C4: a concrete format-check predicate and database
behaviour. -/
theorem c4_witness :
    APIKeyPOST.Valid (fun _ => true) ⟨false, ["AABBCC"]⟩ = false ∧
    (userAPIKeyPOST (some ⟨false, ["AABBCC"]⟩)
        (fun _ => .created 5)).persistAttempted = true :=
  ⟨c4_validation_not_consulted.1 (fun _ => true),
   c4_validation_not_consulted.2 (fun _ => .created 5)⟩

/-- Claim C5: a request with a present-but-invalid bearer token (any
token-validation error) together with an API key that resolves to a user,
on a route with `allowsAPIKey = true`, is served as the key's owning
user: the token failure falls through to the API-key path. -/
theorem c5_invalid_token_falls_through_to_api_key
    (e : AuthErr) (hdr : String) (u : AuthedUser)
    (apiKeyAuth : String → Except AuthErr AuthedUser)
    (h : apiKeyAuth hdr = .ok u) :
    withAuth true (.error e) (apiKeyFromRequest (some hdr)) apiKeyAuth =
      .served (some u) := by
  simp [withAuth, apiKeyFromRequest, h]

/-- Witness for C5. -/
theorem c5_witness :
    withAuth true (.error .noToken) (apiKeyFromRequest (some "AK"))
      (fun _ => .ok ⟨7, 3⟩) = .served (some ⟨7, 3⟩) :=
  c5_invalid_token_falls_through_to_api_key .noToken "AK" ⟨7, 3⟩
    (fun _ => .ok ⟨7, 3⟩) rfl

/-- Claim C6: with no valid token, presenting an API key on a route with
`allowsAPIKey = false` fails with the distinct api-key-not-allowed error
(status 401), whatever the API-key lookup would have returned; presenting
no API key at all instead fails with the no-api-key error; and the
api-key-not-allowed error is distinct from both no-credential errors. -/
theorem c6_api_key_not_allowed_distinct
    (e : AuthErr) (hdr : String)
    (apiKeyAuth : String → Except AuthErr AuthedUser) :
    withAuth false (.error e) (apiKeyFromRequest (some hdr)) apiKeyAuth =
      .httpError 401 .apiKeyNotAllowed ∧
    withAuth false (.error e) (apiKeyFromRequest none) apiKeyAuth =
      .httpError 401 .noAPIKey ∧
    AuthErr.apiKeyNotAllowed ≠ AuthErr.noAPIKey ∧
    AuthErr.apiKeyNotAllowed ≠ AuthErr.noToken := by
  refine ⟨?_, rfl, by decide, by decide⟩
  simp [withAuth, apiKeyFromRequest]

/-- Witness for C6: a concrete invalid-token error and API-key lookup. -/
theorem c6_witness :
    withAuth false (.error .noToken) (apiKeyFromRequest (some "AK2"))
      (fun _ => .ok ⟨1, 1⟩) = .httpError 401 .apiKeyNotAllowed ∧
    withAuth false (.error .noToken) (apiKeyFromRequest none)
      (fun _ => .ok ⟨1, 1⟩) = .httpError 401 .noAPIKey :=
  ⟨(c6_api_key_not_allowed_distinct .noToken "AK2" (fun _ => .ok ⟨1, 1⟩)).1,
   (c6_api_key_not_allowed_distinct .noToken "AK2" (fun _ => .ok ⟨1, 1⟩)).2.1⟩

/-- Claim C7: under matching keys, decoding an encoded cookie value
returns the original token bytes for every expiry; decoding under a
different key pair yields absent; and overwriting any single byte of the
encoded value with a different byte makes decoding yield absent.
`decodeCookie` is a total function into `Option`, so no outcome is a
raised fault. -/
theorem c7_cookie_roundtrip_tamper :
    (∀ (keys : CookieKeys) (t : List Nat) (e : Int),
      decodeCookie keys (encodeCookie keys t e) = some t) ∧
    (∀ (k k' : CookieKeys) (t : List Nat) (e : Int), k ≠ k' →
      decodeCookie k' (encodeCookie k t e) = none) ∧
    (∀ (keys : CookieKeys) (t : List Nat) (e : Int) (i b : Nat)
      (hi : i < (encodeCookie keys t e).length),
      b ≠ (encodeCookie keys t e).get ⟨i, hi⟩ →
      decodeCookie keys ((encodeCookie keys t e).set i b) = none) := by
  refine ⟨?_, ?_, ?_⟩
  · intro keys t e
    simp [decodeCookie, encodeCookie]
  · intro k k' t e hne
    show (if cookieMac k t = cookieMac k' t then some t else none) = none
    rw [if_neg]
    intro hmac
    exact hne (cookieMac_inj hmac).1
  · intro keys t e i b hi hb
    cases i with
    | zero =>
      have hm : (encodeCookie keys t e).get ⟨0, hi⟩ = cookieMac keys t := rfl
      rw [hm] at hb
      show (if b = cookieMac keys t then some t else none) = none
      rw [if_neg hb]
    | succ j =>
      have hj : j < t.length := by
        have := hi
        simp only [encodeCookie, List.length_cons] at this
        omega
      have hget : (encodeCookie keys t e).get ⟨j + 1, hi⟩ = t.get ⟨j, hj⟩ := rfl
      rw [hget] at hb
      show (if cookieMac keys t = cookieMac keys (t.set j b)
            then some (t.set j b) else none) = none
      rw [if_neg]
      intro hmac
      exact set_ne_of_get_ne t j b hj hb (cookieMac_inj hmac).2.symm

/-- Witness for C7: a concrete round-trip, a wrong-key decode and a
byte-flip decode. -/
theorem c7_witness :
    decodeCookie ⟨1, 2⟩ (encodeCookie ⟨1, 2⟩ [10, 20] 0) = some [10, 20] ∧
    decodeCookie ⟨3, 4⟩ (encodeCookie ⟨1, 2⟩ [10, 20] 0) = none ∧
    decodeCookie ⟨1, 2⟩ ((encodeCookie ⟨1, 2⟩ [10, 20] 0).set 1 99) = none :=
  ⟨c7_cookie_roundtrip_tamper.1 ⟨1, 2⟩ [10, 20] 0,
   c7_cookie_roundtrip_tamper.2.1 ⟨1, 2⟩ ⟨3, 4⟩ [10, 20] 0 (by decide),
   c7_cookie_roundtrip_tamper.2.2 ⟨1, 2⟩ [10, 20] 0 1 99 (by decide)
     (by decide)⟩

/-- Claim C8: `numChunks` is 0 for sizes up to the base-sector capacity;
above it the result is the ceiling of the overflow over the chunk
capacity, characterized by the two defining inequalities; and the six
test vectors of skynet/bandwidth_test.go hold: 0, 1 MiB and 4 MiB map to
0 chunks, 5 MiB to 1, 50 MiB to 2, 500 MiB to 13. -/
theorem c8_numChunks :
    (∀ size : Nat, size ≤ baseSectorCapacity → numChunks size = 0) ∧
    (∀ size : Nat, baseSectorCapacity < size →
      size - baseSectorCapacity ≤ numChunks size * chunkCapacity ∧
      (numChunks size - 1) * chunkCapacity < size - baseSectorCapacity) ∧
    numChunks 0 = 0 ∧ numChunks (1 * MiB) = 0 ∧ numChunks (4 * MiB) = 0 ∧
    numChunks (5 * MiB) = 1 ∧ numChunks (50 * MiB) = 2 ∧
    numChunks (500 * MiB) = 13 := by
  refine ⟨?_, ?_, by decide, by decide, by decide, by decide, by decide,
    by decide⟩
  · intro size h
    simp [numChunks, h]
  · intro size h
    have hnot : ¬ size ≤ baseSectorCapacity := by omega
    rw [numChunks, if_neg hnot]
    simp only [baseSectorCapacity, chunkCapacity, MiB] at h ⊢
    omega

/-- Witness for C8: size 5 MiB exceeds the base-sector capacity and its
single chunk covers the 1 MiB overflow. -/
theorem c8_witness :
    numChunks 0 = 0 ∧
    (5 * MiB - baseSectorCapacity ≤ numChunks (5 * MiB) * chunkCapacity ∧
      (numChunks (5 * MiB) - 1) * chunkCapacity < 5 * MiB - baseSectorCapacity) :=
  ⟨c8_numChunks.1 0 (by decide), c8_numChunks.2.1 (5 * MiB) (by decide)⟩

/-- Claim C9: `BandwidthDownloadCost` is the fixed 200 KiB overhead plus
the size rounded up to the next multiple of 64 (the rounded value is a
multiple of 64 lying in the interval from the size to size + 63, and for
sizes already a multiple of 64 no rounding addition occurs), and the
five test vectors of skynet/bandwidth_test.go hold. -/
theorem c9_bandwidthDownloadCost :
    (∀ size : Nat,
      BandwidthDownloadCost size = 200 * KiB + roundUpToMultiple size 64 ∧
      size ≤ roundUpToMultiple size 64 ∧
      roundUpToMultiple size 64 < size + 64 ∧
      64 ∣ roundUpToMultiple size 64) ∧
    (∀ size : Nat, 64 ∣ size →
      BandwidthDownloadCost size = 200 * KiB + size) ∧
    BandwidthDownloadCost 0 = 200 * KiB ∧
    BandwidthDownloadCost (1 * MiB) = 200 * KiB + 1 * MiB ∧
    BandwidthDownloadCost (1 * MiB + 1) = 200 * KiB + 1 * MiB + 64 ∧
    BandwidthDownloadCost (4 * MiB) = 200 * KiB + 4 * MiB ∧
    BandwidthDownloadCost (500 * MiB + 1) = 200 * KiB + 500 * MiB + 64 := by
  have hchar : ∀ size : Nat,
      size ≤ roundUpToMultiple size 64 ∧
      roundUpToMultiple size 64 < size + 64 ∧
      64 ∣ roundUpToMultiple size 64 := by
    intro size
    unfold roundUpToMultiple
    refine ⟨by omega, by omega, Nat.dvd_mul_left _ _⟩
  refine ⟨fun size => ⟨rfl, hchar size⟩, ?_, by decide, by decide, by decide,
    by decide, by decide⟩
  intro size hdvd
  obtain ⟨h1, h2, h3⟩ := hchar size
  have : roundUpToMultiple size 64 = size := by omega
  rw [BandwidthDownloadCost, this]

/-- Witness for C9: 128 bytes is a multiple of 64 and incurs no rounding
addition. -/
theorem c9_witness : BandwidthDownloadCost 128 = 200 * KiB + 128 :=
  c9_bandwidthDownloadCost.2.1 128 (by decide)

/-- Claim C10: a GET for an existing key owned by a different user
responds 404 with no body detail, and this response is identical to the
one for a key identifier that does not exist at all. -/
theorem c10_foreign_key_indistinguishable_from_missing
    (uid : Nat) (ak : APIKeyRecordR) (h : ak.userId ≠ uid) :
    userAPIKeyGET uid true (.found ak) = .httpError 404 none ∧
    userAPIKeyGET uid true .noDocuments = .httpError 404 none := by
  constructor
  · simp [userAPIKeyGET, h]
  · rfl

/-- Witness for C10. -/
theorem c10_witness :
    userAPIKeyGET 1 true (.found ⟨2⟩) = .httpError 404 none ∧
    userAPIKeyGET 1 true .noDocuments = .httpError 404 none :=
  c10_foreign_key_indistinguishable_from_missing 1 ⟨2⟩ (by decide)

end Skynet
